import Mathlib

/-!
# MariaConnection: the session / result / transaction lifecycle of RMariaDB

A shallow embedding of `src/MariaConnection.cpp`.

* Pointers (`MYSQL*`, `MariaResult*`, `MYSQL_RES*`) are `Option Nat`: `none` is
  `NULL`, `some a` is the non-null pointer with address `a`.
* The three data members of the class are the fields of `MariaConnection`.
* Every call that leaves the class (the client library, `warning`, the
  `close` method of a `MariaResult`) is appended to a trace, together with the
  values the data members have at the moment of the call.  The order of the
  trace is the order of the statements of the source.
* What the client library answers (the handle of `mysql_init`, whether the
  handshake succeeds, the status of a query, ...) is an argument of the
  operation.
* `stop(...)` raises an R error; an operation returns an `Outcome` together
  with the state in which it leaves the object, since a member function may
  change the object before it raises.
-/

namespace RMariaDB

/-- The data members of `class MariaConnection`. -/
structure MariaConnection where
  pConn_ : Option Nat
  pCurrentResult_ : Option Nat
  transacting_ : Bool
  deriving DecidableEq, Repr

/-- The option selectors passed to `mysql_options` by `connect`. -/
inductive mysql_option
  | MYSQL_OPT_LOCAL_INFILE
  | MYSQL_SET_CHARSET_NAME
  | MYSQL_READ_DEFAULT_GROUP
  | MYSQL_READ_DEFAULT_FILE
  deriving DecidableEq, Repr

/-- The calls that leave the class.  A `const char*` argument is an
`Option String` (`none` is `NULL`). -/
inductive Call
  | warning (msg : String)
  | mysql_init
  | mysql_options (conn : Option Nat) (opt : mysql_option) (arg : Option String)
  | mysql_ssl_set (conn : Option Nat) (key cert ca capath cipher : Option String)
  | mysql_real_connect (conn : Option Nat) (host user password db : Option String)
      (port : Nat) (unix_socket : Option String) (client_flag : Nat)
  | mysql_error (conn : Option Nat)
  | mysql_close (conn : Option Nat)
  | mysql_get_host_info (conn : Option Nat)
  | mysql_get_server_info (conn : Option Nat)
  | mysql_get_proto_info (conn : Option Nat)
  | mysql_thread_id (conn : Option Nat)
  | mysql_get_client_info
  | mysql_real_escape_string (conn : Option Nat) (input : List Char)
  | mysql_real_query (conn : Option Nat) (sql : String)
  | mysql_store_result (conn : Option Nat)
  | mysql_free_result (res : Option Nat)
  | mysql_commit (conn : Option Nat)
  | mysql_rollback (conn : Option Nat)
  | MariaResult_close (pResult : Option Nat)
  deriving DecidableEq, Repr

/-- A connection object together with the trace of the calls made so far; each
call is recorded with the data members as they are when the call is made. -/
structure World where
  obj : MariaConnection
  trace : List (Call × MariaConnection)
  deriving DecidableEq, Repr

/-- How a member function ends: it returns a value, it raises an R error through
`stop`, or its behaviour is undefined (a `NULL` handle is dereferenced, or a
write lands outside a buffer). -/
inductive Outcome (α : Type)
  | ok (a : α)
  | stop (msg : String)
  | undefined
  deriving DecidableEq, Repr

/-- Whether the member function returned normally. -/
def Outcome.returned {α : Type} : Outcome α → Bool
  | .ok _ => true
  | _ => false

/-- Record one call, with the data members at the time of the call. -/
def emit (c : Call) (w : World) : World :=
  { w with trace := w.trace ++ [(c, w.obj)] }

/-- The entries that `w2` has appended to the trace of `w1`. -/
def emitted (w1 w2 : World) : List (Call × MariaConnection) :=
  w2.trace.drop w1.trace.length

/-- The calls (without the recorded data members) appended between `w1` and `w2`. -/
def calls (w1 w2 : World) : List Call :=
  (emitted w1 w2).map Prod.fst

/-- Calls into the client library: everything except `warning` and
`MariaResult::close`. -/
def Call.isTransport : Call → Bool
  | .warning _ => false
  | .MariaResult_close _ => false
  | _ => true

/-- Is the call a warning. -/
def Call.isWarning : Call → Bool
  | .warning _ => true
  | _ => false

/-- `MariaConnection::MariaConnection()`: all three members start out null / false. -/
def MariaConnection.init : MariaConnection :=
  { pConn_ := none, pCurrentResult_ := none, transacting_ := false }

/-- A newly constructed connection, nothing called yet. -/
def World.init : World :=
  { obj := MariaConnection.init, trace := [] }

/-- `MYSQL* MariaConnection::conn()`. -/
def conn (w : World) : Option Nat :=
  w.obj.pConn_

/-- `bool MariaConnection::is_connected()`: `!!conn()`. -/
def is_connected (w : World) : Bool :=
  (conn w).isSome

/-- `bool MariaConnection::is_current_result(MariaResult* pResult)`. -/
def is_current_result (pResult : Option Nat) (w : World) : Bool :=
  decide (w.obj.pCurrentResult_ = pResult)

/-- `bool MariaConnection::has_query()`: `pCurrentResult_ != NULL`. -/
def has_query (w : World) : Bool :=
  decide (w.obj.pCurrentResult_ ≠ none)

/-- `bool MariaConnection::is_transacting() const`. -/
def is_transacting (w : World) : Bool :=
  w.obj.transacting_

/-- `void MariaConnection::check_connection()`. -/
def check_connection (w : World) : Outcome Unit × World :=
  if !is_connected w then
    (.stop "Invalid or closed connection", w)
  else
    (.ok (), w)

/-- The arguments of `MariaConnection::connect`; a `Nullable<std::string>` is an
`Option String`. -/
structure ConnectArgs where
  host : Option String
  user : Option String
  password : Option String
  db : Option String
  port : Nat
  unix_socket : Option String
  client_flag : Nat
  groups : Option String
  default_file : Option String
  ssl_key : Option String
  ssl_cert : Option String
  ssl_ca : Option String
  ssl_capath : Option String
  ssl_cipher : Option String
  deriving DecidableEq, Repr

/-- `void MariaConnection::connect(...)`.  `h` is the address of the handle
that `mysql_init(NULL)` returns (allocation is taken to succeed); `handshake`
is `none` when `mysql_real_connect` succeeds and `some e` when it fails and
`mysql_error` then gives the text `e`. -/
def connect (a : ConnectArgs) (h : Nat) (handshake : Option String) (w : World) :
    Outcome Unit × World :=
  let w := emit .mysql_init w
  let w := { w with obj := { w.obj with pConn_ := some h } }
  let w := emit (.mysql_options w.obj.pConn_ .MYSQL_OPT_LOCAL_INFILE none) w
  let w := emit (.mysql_options w.obj.pConn_ .MYSQL_SET_CHARSET_NAME (some "utf8mb4")) w
  let w := if !a.groups.isNone then
      emit (.mysql_options w.obj.pConn_ .MYSQL_READ_DEFAULT_GROUP a.groups) w
    else w
  let w := if !a.default_file.isNone then
      emit (.mysql_options w.obj.pConn_ .MYSQL_READ_DEFAULT_FILE a.default_file) w
    else w
  let w := if !a.ssl_key.isNone || !a.ssl_cert.isNone || !a.ssl_ca.isNone ||
        !a.ssl_capath.isNone || !a.ssl_cipher.isNone then
      emit (.mysql_ssl_set w.obj.pConn_ a.ssl_key a.ssl_cert a.ssl_ca a.ssl_capath
        a.ssl_cipher) w
    else w
  let w := emit (.mysql_real_connect w.obj.pConn_ a.host a.user a.password a.db a.port
    a.unix_socket a.client_flag) w
  match handshake with
  | none => (.ok (), w)
  | some error =>
    let w := emit (.mysql_error w.obj.pConn_) w
    let w := emit (.mysql_close w.obj.pConn_) w
    let w := { w with obj := { w.obj with pConn_ := none } }
    (.stop ("Failed to connect: " ++ error), w)

/-- The text of the warning of `disconnect`, `"%s\n%s"` filled in. -/
def result_in_use_warning : String :=
  "There is a result object still in use.\nThe connection will be automatically released when it is closed"

/-- `void MariaConnection::disconnect()`. -/
def disconnect (w : World) : Outcome Unit × World :=
  if !is_connected w then
    (.ok (), w)
  else
    let w := if has_query w then emit (.warning result_in_use_warning) w else w
    let w := emit (.mysql_close (conn w)) w
    let w := { w with obj := { w.obj with pConn_ := none } }
    (.ok (), w)

/-- `MariaConnection::~MariaConnection()`. -/
def destroy (w : World) : World :=
  if is_connected w then
    let w := emit (.warning "call dbDisconnect() when finished working with a connection") w
    (disconnect w).2
  else
    w

/-- What `connection_info` reads from the handle and the client library. -/
structure ConnectionInfo where
  host : String
  user : String
  dbname : String
  conType : String
  serverVersion : String
  protocolVersion : Int
  threadId : Int
  client : String
  deriving DecidableEq, Repr

/-- `List MariaConnection::connection_info()`.  There is no connection check:
with `pConn_ == NULL` the first thing evaluated dereferences `NULL`.  `info`
is what the handle and the library report. -/
def connection_info (info : ConnectionInfo) (w : World) :
    Outcome ConnectionInfo × World :=
  match w.obj.pConn_ with
  | none => (.undefined, w)
  | some _ =>
    let w := emit (.mysql_get_host_info w.obj.pConn_) w
    let w := emit (.mysql_get_server_info w.obj.pConn_) w
    let w := emit (.mysql_get_proto_info w.obj.pConn_) w
    let w := emit (.mysql_thread_id w.obj.pConn_) w
    let w := emit .mysql_get_client_info w
    (.ok info, w)

/-- `std::string::resize(n)` on a byte string: cut, or fill with `\0`. -/
def resize (s : List Char) (n : Nat) : List Char :=
  s.take n ++ List.replicate (n - s.length) (Char.ofNat 0)

/-- Write `bytes` into `buf` from offset `off`; `none` when a byte would land
outside the buffer. -/
def writeAt (buf : List Char) (off : Nat) (bytes : List Char) : Option (List Char) :=
  if off + bytes.length ≤ buf.length then
    some (buf.take off ++ bytes ++ buf.drop (off + bytes.length))
  else
    none

/-- The single quote character. -/
def quoteChar : Char := Char.ofNat 39

/-- `std::string MariaConnection::quote_string(const Rcpp::String& input)`.
`input = none` is `NA_STRING`; a present string is its list of bytes.
`escaped` are the bytes `mysql_real_escape_string` writes (it then writes a
terminating `\0`), `ret` is the `unsigned long` it returns.  There is no
connection check: with `pConn_ == NULL` the library dereferences `NULL`. -/
def quote_string (input : Option (List Char)) (escaped : List Char) (ret : Nat)
    (w : World) : Outcome (List Char) × World :=
  match input with
  | none => (.ok "NULL".toList, w)
  | some input_cstr =>
    let input_len := input_cstr.length
    let output := resize [quoteChar] ((input_len * 2 + 3) % 2 ^ 64)
    let w := emit (.mysql_real_escape_string w.obj.pConn_ input_cstr) w
    match w.obj.pConn_ with
    | none => (.undefined, w)
    | some _ =>
      match writeAt output 1 (escaped ++ [Char.ofNat 0]) with
      | none => (.undefined, w)
      | some output =>
        let end_ := ret % 2 ^ 64
        let output := resize output ((end_ + 1) % 2 ^ 64)
        let output := output ++ [quoteChar]
        (.ok output, w)

/-- `void MariaConnection::set_current_result(MariaResult* pResult)`. -/
def set_current_result (pResult : Option Nat) (w : World) : Outcome Unit × World :=
  if pResult = w.obj.pCurrentResult_ then
    (.ok (), w)
  else
    let w := if w.obj.pCurrentResult_ ≠ none then
        let w := if pResult ≠ none then emit (.warning "Cancelling previous query") w else w
        emit (.MariaResult_close w.obj.pCurrentResult_) w
      else w
    let w := { w with obj := { w.obj with pCurrentResult_ := pResult } }
    (.ok (), w)

/-- `bool MariaConnection::exec(std::string sql)`.  `status` is what
`mysql_real_query` returns, `error` the text of `mysql_error` when it is not
0, `res` the pointer `mysql_store_result` returns. -/
def exec (sql : String) (status : Int) (error : String) (res : Option Nat) (w : World) :
    Outcome Bool × World :=
  match check_connection w with
  | (.stop msg, w) => (.stop msg, w)
  | (.undefined, w) => (.undefined, w)
  | (.ok _, w) =>
    let w := (set_current_result none w).2
    let w := emit (.mysql_real_query w.obj.pConn_ sql) w
    if status ≠ 0 then
      let w := emit (.mysql_error w.obj.pConn_) w
      (.stop ("Error executing query: " ++ error), w)
    else
      let w := emit (.mysql_store_result w.obj.pConn_) w
      let w := if res ≠ none then emit (.mysql_free_result res) w else w
      (.ok true, w)

/-- `void MariaConnection::begin_transaction()`. -/
def begin_transaction (w : World) : Outcome Unit × World :=
  if is_transacting w then
    (.stop "Nested transactions not supported.", w)
  else
    match check_connection w with
    | (.stop msg, w) => (.stop msg, w)
    | (.undefined, w) => (.undefined, w)
    | (.ok _, w) =>
      let w := { w with obj := { w.obj with transacting_ := true } }
      (.ok (), w)

/-- `void MariaConnection::commit()`. -/
def commit (w : World) : Outcome Unit × World :=
  if !is_transacting w then
    (.stop "Call dbBegin() to start a transaction.", w)
  else
    match check_connection w with
    | (.stop msg, w) => (.stop msg, w)
    | (.undefined, w) => (.undefined, w)
    | (.ok _, w) =>
      let w := emit (.mysql_commit (conn w)) w
      let w := { w with obj := { w.obj with transacting_ := false } }
      (.ok (), w)

/-- `void MariaConnection::rollback()`. -/
def rollback (w : World) : Outcome Unit × World :=
  if !is_transacting w then
    (.stop "Call dbBegin() to start a transaction.", w)
  else
    match check_connection w with
    | (.stop msg, w) => (.stop msg, w)
    | (.undefined, w) => (.undefined, w)
    | (.ok _, w) =>
      let w := emit (.mysql_rollback (conn w)) w
      let w := { w with obj := { w.obj with transacting_ := false } }
      (.ok (), w)

/-- `void MariaConnection::autocommit()`. -/
def autocommit (w : World) : Outcome Unit × World :=
  if !is_transacting w && (conn w).isSome then
    (.ok (), emit (.mysql_commit (conn w)) w)
  else
    (.ok (), w)

/-- One call of a member function, with what the client library answers. -/
inductive Op
  | connect (a : ConnectArgs) (h : Nat) (handshake : Option String)
  | disconnect
  | set_current_result (pResult : Option Nat)
  | exec (sql : String) (status : Int) (error : String) (res : Option Nat)
  | begin_transaction
  | commit
  | rollback
  | autocommit
  deriving DecidableEq, Repr

/-- Apply one operation: whether it returned normally, and the state it leaves. -/
def step (op : Op) (w : World) : Bool × World :=
  match op with
  | .connect a h handshake =>
    let r := connect a h handshake w
    (r.1.returned, r.2)
  | .disconnect =>
    let r := disconnect w
    (r.1.returned, r.2)
  | .set_current_result pResult =>
    let r := set_current_result pResult w
    (r.1.returned, r.2)
  | .exec sql status error res =>
    let r := exec sql status error res w
    (r.1.returned, r.2)
  | .begin_transaction =>
    let r := begin_transaction w
    (r.1.returned, r.2)
  | .commit =>
    let r := commit w
    (r.1.returned, r.2)
  | .rollback =>
    let r := rollback w
    (r.1.returned, r.2)
  | .autocommit =>
    let r := autocommit w
    (r.1.returned, r.2)

/-- Apply a sequence of operations, one after the other; an operation that
raises leaves the object usable and the next one is applied to it. -/
def run : List Op → World → World
  | [], w => w
  | op :: ops, w => run ops (step op w).2

/-- The operations of a sequence, each with whether it returned normally. -/
def history : List Op → World → List (Op × Bool)
  | [], _ => []
  | op :: ops, w => (op, (step op w).1) :: history ops (step op w).2

/-- The arguments of a `connect` with nothing set. -/
def ConnectArgs.unset : ConnectArgs :=
  { host := none, user := none, password := none, db := none, port := 0,
    unix_socket := none, client_flag := 0, groups := none, default_file := none,
    ssl_key := none, ssl_cert := none, ssl_ca := none, ssl_capath := none,
    ssl_cipher := none }

/-- The text raised by `check_connection`. -/
def connection_error : String := "Invalid or closed connection"

/-- The text raised by a nested `begin_transaction`. -/
def nested_error : String := "Nested transactions not supported."

/-- The text raised by `commit` and `rollback` outside a transaction. -/
def no_transaction_error : String := "Call dbBegin() to start a transaction."

/-- The condition under which an operation keeps "a current result only
while connected": a non-null result is registered only on a connected object,
and the handle is dropped (by `disconnect` or by a failing `connect`) only
when no result is current. -/
def keepsResultInside (op : Op) (w : World) : Bool :=
  match op with
  | .set_current_result pResult => pResult.isNone || is_connected w
  | .disconnect => !has_query w
  | .connect _ _ (some _) => !has_query w
  | _ => true

/-- Every operation of the sequence satisfies `keepsResultInside` in the state
it is applied to. -/
def keepsResultInsideRun : List Op → World → Bool
  | [], _ => true
  | op :: ops, w => keepsResultInside op w && keepsResultInsideRun ops (step op w).2

/-- A `begin_transaction` that returned normally. -/
def isBegin : Op × Bool → Bool
  | (.begin_transaction, true) => true
  | _ => false

/-- A `commit` or a `rollback` that returned normally. -/
def isEnd : Op × Bool → Bool
  | (.commit, true) => true
  | (.rollback, true) => true
  | _ => false

/-- The configuration calls of the options builder as the specification lists
them, for the handle `h`: local-infile enable, charset `utf8mb4`,
read-default-group iff `groups` is present, read-default-file iff
`default_file` is present, and one combined TLS call iff at least one of the
five TLS fields is present, each field passed as it is (its value when present,
`NULL` when absent). -/
def configuration_calls (a : ConnectArgs) (h : Nat) : List Call :=
  [Call.mysql_options (some h) .MYSQL_OPT_LOCAL_INFILE none,
   Call.mysql_options (some h) .MYSQL_SET_CHARSET_NAME (some "utf8mb4")] ++
  (if a.groups.isSome then
      [Call.mysql_options (some h) .MYSQL_READ_DEFAULT_GROUP a.groups] else []) ++
  (if a.default_file.isSome then
      [Call.mysql_options (some h) .MYSQL_READ_DEFAULT_FILE a.default_file] else []) ++
  (if a.ssl_key.isSome || a.ssl_cert.isSome || a.ssl_ca.isSome || a.ssl_capath.isSome ||
      a.ssl_cipher.isSome then
      [Call.mysql_ssl_set (some h) a.ssl_key a.ssl_cert a.ssl_ca a.ssl_capath a.ssl_cipher]
    else [])

/-- The handshake call of `connect` on the handle `h`. -/
def handshake_call (a : ConnectArgs) (h : Nat) : Call :=
  .mysql_real_connect (some h) a.host a.user a.password a.db a.port a.unix_socket
    a.client_flag

/-- Is the call the combined TLS call. -/
def Call.isSslSet : Call → Bool
  | .mysql_ssl_set _ _ _ _ _ _ => true
  | _ => false

/-- Modelled from the spec: the transport's escaping routine
`mysql_real_escape_string` belongs to the client library and is not under
`src/`.  This is its escaping in the default SQL mode for one byte: NUL, line
feed, carriage return, backslash, single quote, double quote and Ctrl-Z get a
backslash in front (the first three and the last as the letters `0`, `n`, `r`,
`Z`); every other byte is copied. -/
def standard_escape_byte (c : Char) : List Char :=
  if c = Char.ofNat 0 then [Char.ofNat 92, Char.ofNat 48]
  else if c = Char.ofNat 10 then [Char.ofNat 92, Char.ofNat 110]
  else if c = Char.ofNat 13 then [Char.ofNat 92, Char.ofNat 114]
  else if c = Char.ofNat 92 then [Char.ofNat 92, Char.ofNat 92]
  else if c = Char.ofNat 39 then [Char.ofNat 92, Char.ofNat 39]
  else if c = Char.ofNat 34 then [Char.ofNat 92, Char.ofNat 34]
  else if c = Char.ofNat 26 then [Char.ofNat 92, Char.ofNat 90]
  else [c]

/-- Modelled from the spec: the standard escaper applied to a whole string (see
`standard_escape_byte`). -/
def standard_escape (input : List Char) : List Char :=
  input.flatMap standard_escape_byte

/-- The transport handles closed by a list of calls, in order. -/
def closedHandles : List Call → List (Option Nat)
  | [] => []
  | .mysql_close c :: cs => c :: closedHandles cs
  | _ :: cs => closedHandles cs

/-! ## Frame lemmas: what each operation does to the data members -/

theorem emit_obj (c : Call) (w : World) : (emit c w).obj = w.obj := rfl

theorem ite_emit_obj (b : Bool) (c : Call) (w : World) :
    (if b = true then emit c w else w).obj = w.obj := by
  cases b <;> rfl

/-- Only `pConn_` is written by `connect`: it ends as the fresh handle when the
handshake succeeds and as `NULL` when it fails. -/
theorem connect_obj (a : ConnectArgs) (h : Nat) (handshake : Option String) (w : World) :
    (connect a h handshake w).2.obj =
      { w.obj with pConn_ := if handshake.isSome then none else some h } := by
  cases handshake <;> simp only [connect, emit_obj, ite_emit_obj] <;> rfl

/-- Only `pConn_` is written by `disconnect`. -/
theorem disconnect_obj (w : World) :
    (disconnect w).2.obj = { w.obj with pConn_ := none } := by
  rcases w with ⟨⟨c, r, t⟩, tr⟩
  cases c <;> simp [disconnect, is_connected, conn, emit_obj, ite_emit_obj]

/-- Only `pCurrentResult_` is written by `set_current_result`. -/
theorem set_current_result_obj (p : Option Nat) (w : World) :
    (set_current_result p w).2.obj = { w.obj with pCurrentResult_ := p } := by
  rcases w with ⟨⟨c, r, t⟩, tr⟩
  cases r <;> cases p <;> simp [set_current_result, emit]
  split_ifs <;> simp_all

/-- On a connected object `exec` clears `pCurrentResult_`; on a disconnected one
it writes nothing. -/
theorem exec_obj (sql : String) (status : Int) (error : String) (res : Option Nat)
    (w : World) :
    (exec sql status error res w).2.obj =
      if is_connected w then { w.obj with pCurrentResult_ := none } else w.obj := by
  rcases w with ⟨⟨c, r, t⟩, tr⟩
  cases c with
  | none => simp [exec, check_connection, is_connected, conn]
  | some h =>
    simp only [exec, check_connection, is_connected, conn]
    by_cases hs : status = 0
    · simp [hs, emit_obj, ite_emit_obj, set_current_result_obj]
      split_ifs <;> simp [emit_obj, set_current_result_obj]
    · simp [hs, emit_obj, set_current_result_obj]

/-- The three transaction operations write `transacting_` only, and only when
they return normally. -/
theorem begin_transaction_obj (w : World) :
    (begin_transaction w).2.obj =
      if (begin_transaction w).1.returned then { w.obj with transacting_ := true }
      else w.obj := by
  rcases w with ⟨⟨c, r, t⟩, tr⟩
  cases c <;> cases t <;>
    simp [begin_transaction, is_transacting, check_connection, is_connected, conn,
      Outcome.returned]

theorem commit_obj (w : World) :
    (commit w).2.obj =
      if (commit w).1.returned then { w.obj with transacting_ := false } else w.obj := by
  rcases w with ⟨⟨c, r, t⟩, tr⟩
  cases c <;> cases t <;>
    simp [commit, is_transacting, check_connection, is_connected, conn,
      Outcome.returned, emit]

theorem rollback_obj (w : World) :
    (rollback w).2.obj =
      if (rollback w).1.returned then { w.obj with transacting_ := false } else w.obj := by
  rcases w with ⟨⟨c, r, t⟩, tr⟩
  cases c <;> cases t <;>
    simp [rollback, is_transacting, check_connection, is_connected, conn,
      Outcome.returned, emit]

theorem autocommit_obj (w : World) : (autocommit w).2.obj = w.obj := by
  unfold autocommit
  split_ifs <;> rfl

/-- One operation that satisfies `keepsResultInside` preserves "a current result
only while connected". -/
theorem step_keepsResultInside (op : Op) (w : World)
    (hinv : has_query w = true → is_connected w = true)
    (hop : keepsResultInside op w = true) :
    has_query (step op w).2 = true → is_connected (step op w).2 = true := by
  rcases w with ⟨⟨c, r, t⟩, tr⟩
  cases op with
  | connect a h hs =>
    cases hs <;>
      simp_all [step, connect_obj, has_query, is_connected, conn, keepsResultInside]
  | disconnect =>
    simp_all [step, disconnect_obj, has_query, is_connected, conn, keepsResultInside]
  | set_current_result p =>
    cases p <;>
      simp_all [step, set_current_result_obj, has_query, is_connected, conn,
        keepsResultInside]
  | exec sql status error res =>
    cases c <;> simp_all [step, exec_obj, has_query, is_connected, conn]
  | begin_transaction =>
    simp only [step, has_query, is_connected, conn, begin_transaction_obj] at hinv ⊢
    split_ifs <;> simpa using hinv
  | commit =>
    simp only [step, has_query, is_connected, conn, commit_obj] at hinv ⊢
    split_ifs <;> simpa using hinv
  | rollback =>
    simp only [step, has_query, is_connected, conn, rollback_obj] at hinv ⊢
    split_ifs <;> simpa using hinv
  | autocommit =>
    simpa [step, has_query, is_connected, conn, autocommit_obj] using hinv

/-- The invariant is carried along a whole sequence, from any state that has it. -/
theorem run_keepsResultInside (ops : List Op) :
    ∀ w : World, (has_query w = true → is_connected w = true) →
      keepsResultInsideRun ops w = true →
      (has_query (run ops w) = true → is_connected (run ops w) = true) := by
  induction ops with
  | nil => intro w hinv _; simpa [run] using hinv
  | cons op ops ih =>
    intro w hinv hadm
    simp only [keepsResultInsideRun, Bool.and_eq_true] at hadm
    simp only [run]
    exact ih _ (step_keepsResultInside op w hinv hadm.1) hadm.2

theorem isBegin_iff (e : Op × Bool) :
    isBegin e = true ↔ e = (Op.begin_transaction, true) := by
  rcases e with ⟨op, b⟩
  cases op <;> cases b <;> simp [isBegin]

theorem isEnd_of_isBegin (e : Op × Bool) (h : isBegin e = true) : isEnd e = false := by
  rw [isBegin_iff] at h
  subst h
  rfl

/-- What one operation does to `transacting_`: a successful begin sets it, a
successful commit or rollback clears it, anything else leaves it. -/
theorem step_transacting (op : Op) (w : World) :
    is_transacting (step op w).2 =
      if isBegin (op, (step op w).1) then true
      else if isEnd (op, (step op w).1) then false
      else is_transacting w := by
  cases op with
  | connect a h hs => simp [step, is_transacting, connect_obj, isBegin, isEnd]
  | disconnect => simp [step, is_transacting, disconnect_obj, isBegin, isEnd]
  | set_current_result p =>
    simp [step, is_transacting, set_current_result_obj, isBegin, isEnd]
  | exec sql status error res =>
    simp only [step, is_transacting, exec_obj, isBegin, isEnd]
    split_ifs <;> simp_all
  | begin_transaction =>
    simp only [step, is_transacting, begin_transaction_obj]
    cases (begin_transaction w).1.returned <;> simp [isBegin, isEnd]
  | commit =>
    simp only [step, is_transacting, commit_obj]
    cases (commit w).1.returned <;> simp [isBegin, isEnd]
  | rollback =>
    simp only [step, is_transacting, rollback_obj]
    cases (rollback w).1.returned <;> simp [isBegin, isEnd]
  | autocommit => simp [step, is_transacting, autocommit_obj, isBegin, isEnd]

/-- From any start state: `transacting_` is true at the end iff the history has a
successful begin with no successful commit or rollback after it, or the flag
was true at the start and the history has no successful commit or rollback. -/
theorem run_transacting (ops : List Op) : ∀ w : World,
    is_transacting (run ops w) = true ↔
      (∃ pre post, history ops w = pre ++ (Op.begin_transaction, true) :: post ∧
          post.all (fun e => !isEnd e) = true) ∨
        (is_transacting w = true ∧ (history ops w).all (fun e => !isEnd e) = true) := by
  induction ops with
  | nil => intro w; simp [run, history]
  | cons op ops ih =>
    intro w
    simp only [run, history]
    rw [ih, step_transacting]
    constructor
    · rintro (⟨pre, post, hh, hp⟩ | ⟨ht, hall⟩)
      · exact Or.inl ⟨(op, (step op w).1) :: pre, post, by simp [hh], hp⟩
      · by_cases hb : isBegin (op, (step op w).1) = true
        · left
          refine ⟨[], history ops (step op w).2, ?_, hall⟩
          rw [(isBegin_iff _).1 hb]
          rfl
        · by_cases he : isEnd (op, (step op w).1) = true
          · simp [hb, he] at ht
          · right
            simp only [hb, he] at ht
            refine ⟨by simpa using ht, ?_⟩
            simp only [List.all_cons, Bool.and_eq_true]
            exact ⟨by simpa using he, hall⟩
    · rintro (⟨pre, post, hh, hp⟩ | ⟨ht, hall⟩)
      · cases pre with
        | nil =>
          simp only [List.nil_append, List.cons.injEq] at hh
          right
          refine ⟨?_, by rw [hh.2]; exact hp⟩
          rw [hh.1]
          rfl
        | cons x pre =>
          simp only [List.cons_append, List.cons.injEq] at hh
          exact Or.inl ⟨pre, post, hh.2, hp⟩
      · right
        simp only [List.all_cons, Bool.and_eq_true] at hall
        refine ⟨?_, hall.2⟩
        have he : isEnd (op, (step op w).1) = false := by simpa using hall.1
        by_cases hb : isBegin (op, (step op w).1) = true
        · simp [hb]
        · simp [hb, he, ht]

theorem calls_of_trace (w1 w2 : World) (l : List (Call × MariaConnection))
    (h : w2.trace = w1.trace ++ l) : calls w1 w2 = l.map Prod.fst := by
  simp [calls, emitted, h]

theorem calls_self (w : World) : calls w w = [] := by
  simp [calls, emitted]

/-- The whole effect of `set_current_result`, case by case. -/
theorem set_current_result_eq (p : Option Nat) (w : World) :
    set_current_result p w =
      (.ok (),
        if p = w.obj.pCurrentResult_ then w
        else
          ⟨{ w.obj with pCurrentResult_ := p },
            w.trace ++
              (if w.obj.pCurrentResult_ = none then []
               else
                (if p = none then [] else [(Call.warning "Cancelling previous query", w.obj)]) ++
                  [(Call.MariaResult_close w.obj.pCurrentResult_, w.obj)])⟩) := by
  rcases w with ⟨⟨c, r, t⟩, tr⟩
  cases r <;> cases p <;> simp [set_current_result, emit]
  split_ifs <;> simp_all [emit]

/-! ## The claims -/

/-- C1 (as stated, refuted): after `connect` (handshake succeeds),
`set_current_result` with a non-null result and `disconnect`, applied to a
newly constructed connection, `has_query()` is true while `is_connected()` is
false: `disconnect` sets `pConn_` to `NULL` and leaves `pCurrentResult_`. -/
theorem C1_counterexample :
    has_query (run [.connect ConnectArgs.unset 1 none, .set_current_result (some 7),
        .disconnect] World.init) = true ∧
      is_connected (run [.connect ConnectArgs.unset 1 none, .set_current_result (some 7),
        .disconnect] World.init) = false := by
  decide

/-- C1 (amended): in every state reached from a newly constructed connection by a
sequence of operations in which `set_current_result` gets a non-null result only
while connected, and `disconnect` and a failing `connect` are applied only while
no result is current, `has_query()` is true only if `is_connected()` is true. -/
theorem C1_result_only_while_connected (ops : List Op)
    (hops : keepsResultInsideRun ops World.init = true) :
    has_query (run ops World.init) = true → is_connected (run ops World.init) = true :=
  run_keepsResultInside ops World.init (by decide) hops

/-- C1 witness: a sequence that ends connected with a result current. -/
theorem C1_result_only_while_connected_witness :
    keepsResultInsideRun [.connect ConnectArgs.unset 1 none, .set_current_result (some 7),
        .begin_transaction, .exec "SELECT 1" 0 "" none, .commit,
        .set_current_result (some 8)] World.init = true ∧
      has_query (run [.connect ConnectArgs.unset 1 none, .set_current_result (some 7),
        .begin_transaction, .exec "SELECT 1" 0 "" none, .commit,
        .set_current_result (some 8)] World.init) = true ∧
      is_connected (run [.connect ConnectArgs.unset 1 none, .set_current_result (some 7),
        .begin_transaction, .exec "SELECT 1" 0 "" none, .commit,
        .set_current_result (some 8)] World.init) = true :=
  ⟨by decide, by decide, C1_result_only_while_connected _ (by decide) (by decide)⟩

/-- C2 (as stated, refuted): on a disconnected connection `quote_string` of the
missing value returns normally, `commit` and `rollback` outside a transaction
raise the transaction error, and `begin_transaction` inside a transaction
raises the nested-transaction error; none of these is the connection error. -/
theorem C2_counterexample :
    is_connected World.init = false ∧
      (quote_string none [] 0 World.init).1 = .ok "NULL".toList ∧
      (commit World.init).1 = .stop no_transaction_error ∧
      (commit World.init).1 ≠ .stop connection_error ∧
      (rollback World.init).1 = .stop no_transaction_error ∧
      (rollback World.init).1 ≠ .stop connection_error ∧
      is_connected ⟨⟨none, none, true⟩, []⟩ = false ∧
      (begin_transaction ⟨⟨none, none, true⟩, []⟩).1 = .stop nested_error ∧
      (begin_transaction ⟨⟨none, none, true⟩, []⟩).1 ≠ .stop connection_error := by
  decide

/-- C2 (amended): on a disconnected connection, whatever `transacting_` and
`pCurrentResult_` are, `exec` raises the connection error; `begin_transaction`
raises it when `transacting_` is false and the nested-transaction error when
it is true; `commit` and `rollback` raise it when `transacting_` is true and
the transaction error when it is false; all four leave the state as it was.
`quote_string` and `connection_info` make no connection check:
`quote_string` of the missing value returns `NULL` normally, and for a present
string, as in `connection_info`, the `NULL` handle is used (undefined). -/
theorem C2_disconnected_operations (w : World) (hw : w.obj.pConn_ = none) :
    (∀ sql status error res, exec sql status error res w = (.stop connection_error, w)) ∧
      begin_transaction w =
        (.stop (if w.obj.transacting_ then nested_error else connection_error), w) ∧
      commit w =
        (.stop (if w.obj.transacting_ then connection_error else no_transaction_error), w) ∧
      rollback w =
        (.stop (if w.obj.transacting_ then connection_error else no_transaction_error), w) ∧
      (∀ escaped ret, quote_string none escaped ret w = (.ok "NULL".toList, w)) ∧
      (∀ input escaped ret, (quote_string (some input) escaped ret w).1 = .undefined) ∧
      (∀ info, connection_info info w = (.undefined, w)) := by
  rcases w with ⟨⟨c, r, t⟩, tr⟩
  simp only at hw
  subst hw
  refine ⟨?_, ?_, ?_, ?_, ?_, ?_, ?_⟩
  · intro sql status error res
    simp [exec, check_connection, is_connected, conn, connection_error]
  · cases t <;>
      simp [begin_transaction, is_transacting, check_connection, is_connected, conn,
        connection_error, nested_error]
  · cases t <;>
      simp [commit, is_transacting, check_connection, is_connected, conn,
        connection_error, no_transaction_error]
  · cases t <;>
      simp [rollback, is_transacting, check_connection, is_connected, conn,
        connection_error, no_transaction_error]
  · intro escaped ret
    rfl
  · intro input escaped ret
    simp [quote_string, emit]
  · intro info
    rfl

/-- C2 witness: a connection left by a disconnect made inside a transaction. -/
theorem C2_disconnected_operations_witness :
    (⟨⟨none, some 7, true⟩, []⟩ : World).obj.pConn_ = none ∧
      commit ⟨⟨none, some 7, true⟩, []⟩ =
        (.stop connection_error, ⟨⟨none, some 7, true⟩, []⟩) ∧
      begin_transaction ⟨⟨none, some 7, true⟩, []⟩ =
        (.stop nested_error, ⟨⟨none, some 7, true⟩, []⟩) :=
  ⟨rfl, (C2_disconnected_operations ⟨⟨none, some 7, true⟩, []⟩ rfl).2.2.1,
    (C2_disconnected_operations ⟨⟨none, some 7, true⟩, []⟩ rfl).2.1⟩

/-- C3 (as stated, refuted): connected and inside a transaction, `autocommit`
makes no call at all; connected and outside a transaction, it calls
`mysql_commit`. -/
theorem C3_counterexample :
    is_transacting ⟨⟨some 1, none, true⟩, []⟩ = true ∧
      is_connected ⟨⟨some 1, none, true⟩, []⟩ = true ∧
      calls ⟨⟨some 1, none, true⟩, []⟩ (autocommit ⟨⟨some 1, none, true⟩, []⟩).2 = [] ∧
      is_transacting ⟨⟨some 1, none, false⟩, []⟩ = false ∧
      calls ⟨⟨some 1, none, false⟩, []⟩ (autocommit ⟨⟨some 1, none, false⟩, []⟩).2 =
        [.mysql_commit (some 1)] := by
  decide

/-- C3 (amended): `autocommit` issues the transport's commit primitive, once,
exactly when the connection is not in a transaction (`transacting_ == false`)
and connected (`pConn_ != NULL`); in every other state it makes no call at
all.  It always returns normally and writes no data member. -/
theorem C3_autocommit (w : World) :
    (autocommit w).1 = .ok () ∧
      (autocommit w).2.obj = w.obj ∧
      calls w (autocommit w).2 =
        (if !is_transacting w && is_connected w then [Call.mysql_commit w.obj.pConn_]
         else []) := by
  rcases w with ⟨⟨c, r, t⟩, tr⟩
  cases c <;> cases t <;>
    simp [autocommit, is_transacting, is_connected, conn, calls, emitted, emit]

/-- C4 (as stated, refuted): the state left by connect, begin_transaction,
set_current_result and disconnect is disconnected, in a transaction and with
a result current; a connect whose handshake succeeds then ends with
`is_transacting()` and `has_query()` both still true. -/
theorem C4_counterexample :
    (connect ConnectArgs.unset 2 none
        (run [.connect ConnectArgs.unset 1 none, .begin_transaction,
          .set_current_result (some 7), .disconnect] World.init)).1 = .ok () ∧
      is_transacting (connect ConnectArgs.unset 2 none
        (run [.connect ConnectArgs.unset 1 none, .begin_transaction,
          .set_current_result (some 7), .disconnect] World.init)).2 = true ∧
      has_query (connect ConnectArgs.unset 2 none
        (run [.connect ConnectArgs.unset 1 none, .begin_transaction,
          .set_current_result (some 7), .disconnect] World.init)).2 = true := by
  decide

/-- C4 (amended): for every prior state, a connect whose handshake succeeds
returns normally, ends with `is_connected()` true, and leaves `transacting_`
and `pCurrentResult_` as they were: `is_transacting()` and `has_query()` are
false afterwards exactly when they were false before, as they are on a newly
constructed connection. -/
theorem C4_connect_success (a : ConnectArgs) (h : Nat) (w : World) :
    (connect a h none w).1 = .ok () ∧
      is_connected (connect a h none w).2 = true ∧
      (connect a h none w).2.obj.pConn_ = some h ∧
      is_transacting (connect a h none w).2 = is_transacting w ∧
      has_query (connect a h none w).2 = has_query w ∧
      (connect a h none w).2.obj.pCurrentResult_ = w.obj.pCurrentResult_ ∧
      is_transacting (connect a h none World.init).2 = false ∧
      has_query (connect a h none World.init).2 = false := by
  refine ⟨rfl, ?_, ?_, ?_, ?_, ?_, ?_, ?_⟩ <;>
    simp [is_connected, conn, is_transacting, has_query, connect_obj, World.init,
      MariaConnection.init]

/-- C5: in every state with `transacting_` true, `begin_transaction` raises the
nested-transaction error and leaves the whole state as it was: the three data
members are unchanged and no call is made. -/
theorem C5_nested_begin_rejected (w : World) (ht : is_transacting w = true) :
    begin_transaction w = (.stop nested_error, w) ∧
      is_transacting (begin_transaction w).2 = true ∧
      (begin_transaction w).2.obj = w.obj ∧
      calls w (begin_transaction w).2 = [] := by
  have h : begin_transaction w = (.stop nested_error, w) := by
    simp [begin_transaction, ht, nested_error]
  rw [h]
  exact ⟨rfl, ht, rfl, by simp [calls, emitted]⟩

/-- C5 witness: a connected connection inside a transaction, with a result. -/
theorem C5_nested_begin_rejected_witness :
    is_transacting ⟨⟨some 1, some 7, true⟩, []⟩ = true ∧
      begin_transaction ⟨⟨some 1, some 7, true⟩, []⟩ =
        (.stop "Nested transactions not supported.", ⟨⟨some 1, some 7, true⟩, []⟩) :=
  ⟨rfl, (C5_nested_begin_rejected ⟨⟨some 1, some 7, true⟩, []⟩ rfl).1⟩

/-- C6: in every state with `transacting_` false, connected or not, `commit` and
`rollback` each raise the transaction error, make no call (so neither
`mysql_commit` nor `mysql_rollback`), and leave the state, `transacting_`
included, as it was. -/
theorem C6_commit_rollback_outside_transaction (w : World)
    (ht : is_transacting w = false) :
    commit w = (.stop no_transaction_error, w) ∧
      rollback w = (.stop no_transaction_error, w) ∧
      is_transacting (commit w).2 = false ∧
      is_transacting (rollback w).2 = false ∧
      calls w (commit w).2 = [] ∧
      calls w (rollback w).2 = [] := by
  have hc : commit w = (.stop no_transaction_error, w) := by
    simp [commit, ht, no_transaction_error]
  have hr : rollback w = (.stop no_transaction_error, w) := by
    simp [rollback, ht, no_transaction_error]
  rw [hc, hr]
  exact ⟨rfl, rfl, ht, ht, by simp [calls, emitted], by simp [calls, emitted]⟩

/-- C6 witness: a connected connection outside a transaction. -/
theorem C6_commit_rollback_outside_transaction_witness :
    is_transacting ⟨⟨some 1, none, false⟩, []⟩ = false ∧
      commit ⟨⟨some 1, none, false⟩, []⟩ =
        (.stop "Call dbBegin() to start a transaction.", ⟨⟨some 1, none, false⟩, []⟩) ∧
      rollback ⟨⟨some 1, none, false⟩, []⟩ =
        (.stop "Call dbBegin() to start a transaction.", ⟨⟨some 1, none, false⟩, []⟩) :=
  ⟨rfl, (C6_commit_rollback_outside_transaction ⟨⟨some 1, none, false⟩, []⟩ rfl).1,
    (C6_commit_rollback_outside_transaction ⟨⟨some 1, none, false⟩, []⟩ rfl).2.1⟩

/-- C7: when the current result is the non-null `old` and `new` is another
non-null result, `set_current_result(new)` returns normally and makes exactly
two calls: the warning, then `close` on `old`, once; `close` is called while
`pCurrentResult_` is still `old` (the data members recorded with the call are
those of the state before).  Afterwards only `pCurrentResult_` has changed,
`is_current_result(old)` is false, `is_current_result(new)` is true and
`has_query()` is true. -/
theorem C7_supersede_result (w : World) (old new : Nat)
    (hcur : w.obj.pCurrentResult_ = some old) (hne : new ≠ old) :
    (set_current_result (some new) w).1 = .ok () ∧
      emitted w (set_current_result (some new) w).2 =
        [(.warning "Cancelling previous query", w.obj),
         (.MariaResult_close (some old), w.obj)] ∧
      (calls w (set_current_result (some new) w).2).count (.MariaResult_close (some old)) = 1 ∧
      (emitted w (set_current_result (some new) w).2).map (fun e => e.2.pCurrentResult_) =
        [some old, some old] ∧
      (set_current_result (some new) w).2.obj = { w.obj with pCurrentResult_ := some new } ∧
      is_current_result (some old) (set_current_result (some new) w).2 = false ∧
      is_current_result (some new) (set_current_result (some new) w).2 = true ∧
      has_query (set_current_result (some new) w).2 = true := by
  rcases w with ⟨⟨c, r, t⟩, tr⟩
  simp only at hcur
  subst hcur
  have h : set_current_result (some new) ⟨⟨c, some old, t⟩, tr⟩ =
      (.ok (), ⟨⟨c, some new, t⟩,
        tr ++ [(.warning "Cancelling previous query", ⟨c, some old, t⟩)] ++
          [(.MariaResult_close (some old), ⟨c, some old, t⟩)]⟩) := by
    simp [set_current_result, hne, emit]
  rw [h]
  have hne2 : ¬ old = new := fun e => hne e.symm
  refine ⟨rfl, ?_, ?_, ?_, rfl, ?_, ?_, ?_⟩ <;>
    simp [calls, emitted, is_current_result, has_query, hne, hne2]

/-- C7 witness: result 7 is current, result 8 replaces it. -/
theorem C7_supersede_result_witness :
    (⟨⟨some 1, some 7, false⟩, []⟩ : World).obj.pCurrentResult_ = some 7 ∧ 8 ≠ 7 ∧
      (set_current_result (some 8) ⟨⟨some 1, some 7, false⟩, []⟩).2 =
        ⟨⟨some 1, some 8, false⟩,
          [(.warning "Cancelling previous query", ⟨some 1, some 7, false⟩),
           (.MariaResult_close (some 7), ⟨some 1, some 7, false⟩)]⟩ ∧
      is_current_result (some 7)
        (set_current_result (some 8) ⟨⟨some 1, some 7, false⟩, []⟩).2 = false :=
  ⟨rfl, by decide, by decide,
    (C7_supersede_result ⟨⟨some 1, some 7, false⟩, []⟩ 7 8 rfl (by decide)).2.2.2.2.2.1⟩

/-- C8: for every state and every candidate, null or not,
`set_current_result(candidate)` emits the warning "Cancelling previous query"
iff the current result is non-null, the candidate is non-null and the two
differ; with the current result as candidate the call changes nothing (same
state, same trace); with the null candidate the only call is `close` on the
current result when that is non-null (no warning), no call otherwise, and
`pCurrentResult_` ends null. -/
theorem C8_cancel_warning (w : World) (candidate : Option Nat) :
    (Call.warning "Cancelling previous query" ∈ calls w (set_current_result candidate w).2 ↔
        (w.obj.pCurrentResult_ ≠ none ∧ candidate ≠ none ∧
          candidate ≠ w.obj.pCurrentResult_)) ∧
      ((calls w (set_current_result candidate w).2).any Call.isWarning =
        decide (w.obj.pCurrentResult_ ≠ none ∧ candidate ≠ none ∧
          candidate ≠ w.obj.pCurrentResult_)) ∧
      set_current_result w.obj.pCurrentResult_ w = (.ok (), w) ∧
      calls w (set_current_result none w).2 =
        (if w.obj.pCurrentResult_ ≠ none then [Call.MariaResult_close w.obj.pCurrentResult_]
         else []) ∧
      (set_current_result none w).2.obj = { w.obj with pCurrentResult_ := none } := by
  rcases w with ⟨⟨c, r, t⟩, tr⟩
  have hnone : calls ⟨⟨c, r, t⟩, tr⟩ (set_current_result none ⟨⟨c, r, t⟩, tr⟩).2 =
      (if r ≠ none then [Call.MariaResult_close r] else []) := by
    rw [set_current_result_eq]
    cases r with
    | none => simp [calls_self]
    | some old => simp [calls_of_trace _ _ [(Call.MariaResult_close (some old), ⟨c, some old, t⟩)]]
  have hcalls : calls ⟨⟨c, r, t⟩, tr⟩ (set_current_result candidate ⟨⟨c, r, t⟩, tr⟩).2 =
      (if candidate = r then []
       else if r = none then []
       else (if candidate = none then [] else [Call.warning "Cancelling previous query"]) ++
          [Call.MariaResult_close r]) := by
    rw [set_current_result_eq]
    by_cases h1 : candidate = r
    · simp [h1, calls_self]
    · simp only [h1, if_false]
      rw [calls_of_trace _ _ _ rfl]
      by_cases h2 : r = none
      · simp [h2]
      · by_cases h3 : candidate = none <;> simp [h2, h3]
  refine ⟨?_, ?_, ?_, hnone, ?_⟩
  · rw [hcalls]
    by_cases h1 : candidate = r
    · simp [h1]
    · by_cases h2 : r = none
      · simp [h1, h2]
      · by_cases h3 : candidate = none <;> simp [h1, h2, h3]
  · rw [hcalls]
    by_cases h1 : candidate = r
    · simp [h1]
    · by_cases h2 : r = none
      · simp [h1, h2]
      · by_cases h3 : candidate = none <;> simp [h1, h2, h3, Call.isWarning]
  · simp [set_current_result]
  · cases r <;> simp [set_current_result, emit]

/-- C9: on a connected connection (handle `h`, any current result `r`, any
trace), `begin_transaction` from idle returns normally, sets `transacting_`
and makes no call; `commit` from a transaction returns normally, makes exactly
one call, `mysql_commit` on the handle, and clears `transacting_`; `rollback`
from a transaction does the same with `mysql_rollback`.  In all three `pConn_`
and `pCurrentResult_` are unchanged. -/
theorem C9_transaction_state_machine (h : Nat) (r : Option Nat)
    (tr : List (Call × MariaConnection)) :
    begin_transaction ⟨⟨some h, r, false⟩, tr⟩ = (.ok (), ⟨⟨some h, r, true⟩, tr⟩) ∧
      commit ⟨⟨some h, r, true⟩, tr⟩ =
        (.ok (), ⟨⟨some h, r, false⟩, tr ++ [(.mysql_commit (some h), ⟨some h, r, true⟩)]⟩) ∧
      rollback ⟨⟨some h, r, true⟩, tr⟩ =
        (.ok (), ⟨⟨some h, r, false⟩,
          tr ++ [(.mysql_rollback (some h), ⟨some h, r, true⟩)]⟩) ∧
      calls ⟨⟨some h, r, false⟩, tr⟩ (begin_transaction ⟨⟨some h, r, false⟩, tr⟩).2 = [] ∧
      calls ⟨⟨some h, r, true⟩, tr⟩ (commit ⟨⟨some h, r, true⟩, tr⟩).2 =
        [.mysql_commit (some h)] ∧
      calls ⟨⟨some h, r, true⟩, tr⟩ (rollback ⟨⟨some h, r, true⟩, tr⟩).2 =
        [.mysql_rollback (some h)] := by
  refine ⟨?_, ?_, ?_, ?_, ?_, ?_⟩ <;>
    simp [begin_transaction, commit, rollback, is_transacting, check_connection,
      is_connected, conn, emit, calls, emitted]

/-- C10: for every sequence of operations applied to a newly constructed
connection, `is_transacting()` is true at the end iff the sequence contains a
`begin_transaction` that returned normally with no normally returning `commit`
or `rollback` after it.  `connect`, `disconnect`, `exec`,
`set_current_result` and `autocommit` never change `transacting_`;
`begin_transaction`, `commit` and `rollback` change it only when they return
normally. -/
theorem C10_transacting_trace (ops : List Op) :
    (is_transacting (run ops World.init) = true ↔
        ∃ pre post, history ops World.init = pre ++ (Op.begin_transaction, true) :: post ∧
          post.all (fun e => !isEnd e) = true) ∧
      (∀ w a h handshake, is_transacting (connect a h handshake w).2 = is_transacting w) ∧
      (∀ w, is_transacting (disconnect w).2 = is_transacting w) ∧
      (∀ w sql status error res,
        is_transacting (exec sql status error res w).2 = is_transacting w) ∧
      (∀ w pResult, is_transacting (set_current_result pResult w).2 = is_transacting w) ∧
      (∀ w, is_transacting (autocommit w).2 = is_transacting w) ∧
      (∀ w, is_transacting (begin_transaction w).2 =
        (is_transacting w || (begin_transaction w).1.returned)) ∧
      (∀ w, is_transacting (commit w).2 = (is_transacting w && !(commit w).1.returned)) ∧
      (∀ w, is_transacting (rollback w).2 =
        (is_transacting w && !(rollback w).1.returned)) := by
  refine ⟨?_, ?_, ?_, ?_, ?_, ?_, ?_, ?_, ?_⟩
  · rw [run_transacting]
    simp [is_transacting, World.init, MariaConnection.init]
  · intro w a h handshake
    simp [is_transacting, connect_obj]
  · intro w
    simp [is_transacting, disconnect_obj]
  · intro w sql status error res
    simp only [is_transacting, exec_obj]
    split_ifs <;> rfl
  · intro w pResult
    simp [is_transacting, set_current_result_obj]
  · intro w
    simp [is_transacting, autocommit_obj]
  · intro w
    simp only [is_transacting, begin_transaction_obj]
    cases (begin_transaction w).1.returned <;> simp
  · intro w
    simp only [is_transacting, commit_obj]
    cases (commit w).1.returned <;> simp
  · intro w
    simp only [is_transacting, rollback_obj]
    cases (rollback w).1.returned <;> simp

/-! ## Traces of `connect`, `disconnect` and `exec` -/

/-- The whole trace of `connect`: `mysql_init` is called on the state before,
everything else with `pConn_` already the fresh handle. -/
theorem connect_trace (a : ConnectArgs) (h : Nat) (handshake : Option String) (w : World) :
    (connect a h handshake w).2.trace =
      w.trace ++ (Call.mysql_init, w.obj) ::
        ((configuration_calls a h ++ handshake_call a h ::
            (if handshake.isSome then [Call.mysql_error (some h), Call.mysql_close (some h)]
             else [])).map
          (fun c => (c, { w.obj with pConn_ := some h }))) := by
  have hsome : ∀ o : Option String, o.isSome = !o.isNone := by
    intro o; cases o <;> rfl
  simp only [connect, configuration_calls, handshake_call, hsome]
  generalize a.groups.isNone = g
  generalize a.default_file.isNone = d
  generalize (!a.ssl_key.isNone || !a.ssl_cert.isNone || !a.ssl_ca.isNone ||
    !a.ssl_capath.isNone || !a.ssl_cipher.isNone) = t
  cases g <;> cases d <;> cases t <;> cases handshake <;> simp [emit]

/-- The calls of `connect`, in order. -/
theorem connect_calls (a : ConnectArgs) (h : Nat) (handshake : Option String) (w : World) :
    calls w (connect a h handshake w).2 =
      Call.mysql_init :: (configuration_calls a h ++ handshake_call a h ::
        (if handshake.isSome then [Call.mysql_error (some h), Call.mysql_close (some h)]
         else [])) := by
  rw [calls_of_trace _ _ _ (connect_trace a h handshake w)]
  simp [Function.comp_def]

theorem closedHandles_append (xs ys : List Call) :
    closedHandles (xs ++ ys) = closedHandles xs ++ closedHandles ys := by
  induction xs with
  | nil => rfl
  | cons x xs ih => cases x <;> simp [closedHandles, ih]

/-- The options builder closes nothing. -/
theorem closedHandles_configuration (a : ConnectArgs) (h : Nat) :
    closedHandles (configuration_calls a h) = [] := by
  simp only [configuration_calls]
  split_ifs <;> simp [closedHandles]

/-- The options builder warns about nothing. -/
theorem configuration_no_warning (a : ConnectArgs) (h : Nat) :
    (configuration_calls a h).any Call.isWarning = false := by
  simp only [configuration_calls]
  split_ifs <;> simp [Call.isWarning]

/-- No call of the options builder is a warning. -/
theorem configuration_isWarning (a : ConnectArgs) (h : Nat) (x : Call)
    (hx : x ∈ configuration_calls a h) : Call.isWarning x = false := by
  have hall := configuration_no_warning a h
  rw [List.any_eq_false] at hall
  simpa using hall x hx

/-- The options builder makes no `mysql_close`. -/
theorem count_close_configuration (a : ConnectArgs) (h : Nat) (c : Option Nat) :
    (configuration_calls a h).count (Call.mysql_close c) = 0 := by
  simp only [configuration_calls]
  split_ifs <;> simp [List.count_cons]

/-- The whole effect of `disconnect` on a connected object. -/
theorem disconnect_connected (h : Nat) (r : Option Nat) (t : Bool)
    (tr : List (Call × MariaConnection)) :
    disconnect ⟨⟨some h, r, t⟩, tr⟩ =
      (.ok (), ⟨⟨none, r, t⟩,
        tr ++ (if r ≠ none then [(Call.warning result_in_use_warning, ⟨some h, r, t⟩)]
               else []) ++ [(Call.mysql_close (some h), ⟨some h, r, t⟩)]⟩) := by
  cases r <;> simp [disconnect, is_connected, conn, has_query, emit]

/-- The whole effect of `disconnect` on a disconnected object: nothing. -/
theorem disconnect_disconnected (r : Option Nat) (t : Bool)
    (tr : List (Call × MariaConnection)) :
    disconnect ⟨⟨none, r, t⟩, tr⟩ = (.ok (), ⟨⟨none, r, t⟩, tr⟩) := by
  simp [disconnect, is_connected, conn]

/-- C11: `disconnect` is idempotent: applied to the state a `disconnect` leaves
(the trace included) it returns normally and changes nothing; and applied to
any disconnected state it returns normally with the same state and the same
trace, so without a warning and without `mysql_close`. -/
theorem C11_disconnect_idempotent (w : World) :
    disconnect (disconnect w).2 = (.ok (), (disconnect w).2) ∧
      (disconnect (disconnect w).2).2 = (disconnect w).2 ∧
      (disconnect w).1 = .ok () ∧
      calls (disconnect w).2 (disconnect (disconnect w).2).2 = [] ∧
      (∀ r t tr, disconnect ⟨⟨none, r, t⟩, tr⟩ = (.ok (), ⟨⟨none, r, t⟩, tr⟩)) ∧
      (∀ r t tr, calls ⟨⟨none, r, t⟩, tr⟩ (disconnect ⟨⟨none, r, t⟩, tr⟩).2 = []) := by
  rcases w with ⟨⟨c, r, t⟩, tr⟩
  have h2 : ∀ r t tr, calls ⟨⟨none, r, t⟩, tr⟩ (disconnect ⟨⟨none, r, t⟩, tr⟩).2 = [] := by
    intro r t tr
    rw [disconnect_disconnected]
    exact calls_self _
  cases c with
  | none =>
    refine ⟨?_, ?_, ?_, ?_, disconnect_disconnected, h2⟩ <;>
      simp [disconnect_disconnected, calls_self]
  | some h =>
    refine ⟨?_, ?_, ?_, ?_, disconnect_disconnected, h2⟩ <;>
      simp [disconnect_connected, disconnect_disconnected, calls_self]

/-- C12: when the handshake fails with the driver text `e`, `connect` raises
"Failed to connect: " followed by `e`; its calls are `mysql_init`, the
configuration calls, the handshake, then `mysql_error` on the fresh handle
and only after it `mysql_close` on the fresh handle; that is the only
`mysql_close`, made once; `pConn_` ends `NULL` (`is_connected()` false) and
the other data members are untouched. -/
theorem C12_handshake_failure (a : ConnectArgs) (h : Nat) (e : String) (w : World) :
    (connect a h (some e) w).1 = .stop ("Failed to connect: " ++ e) ∧
      (connect a h (some e) w).2.obj = { w.obj with pConn_ := none } ∧
      is_connected (connect a h (some e) w).2 = false ∧
      calls w (connect a h (some e) w).2 =
        Call.mysql_init :: (configuration_calls a h ++
          [handshake_call a h, Call.mysql_error (some h), Call.mysql_close (some h)]) ∧
      closedHandles (calls w (connect a h (some e) w).2) = [some h] ∧
      (calls w (connect a h (some e) w).2).count (Call.mysql_close (some h)) = 1 := by
  have hc := connect_calls a h (some e) w
  simp only [Option.isSome_some, if_true] at hc
  refine ⟨rfl, ?_, ?_, hc, ?_, ?_⟩
  · simp [connect_obj]
  · simp [is_connected, conn, connect_obj]
  · rw [hc]
    show closedHandles ([Call.mysql_init] ++ (configuration_calls a h ++
      [handshake_call a h, Call.mysql_error (some h), Call.mysql_close (some h)])) = _
    rw [closedHandles_append, closedHandles_append, closedHandles_configuration]
    rfl
  · rw [hc]
    simp [List.count_cons, List.count_append, count_close_configuration, handshake_call]

/-! ## The buffer of `quote_string` -/

theorem resize_length (s : List Char) (n : Nat) : (resize s n).length = n := by
  simp [resize]
  omega

/-- The buffer `quote_string` hands to the escaper: the quote, then zero bytes. -/
theorem resize_quote (m : Nat) :
    resize [quoteChar] (m + 1) = quoteChar :: List.replicate m (Char.ofNat 0) := by
  simp [resize]

/-- Writing `e` and the terminating zero at offset 1 of that buffer. -/
theorem writeAt_quote (m : Nat) (e : List Char) (he : e.length + 1 ≤ m) :
    writeAt (quoteChar :: List.replicate m (Char.ofNat 0)) 1 (e ++ [Char.ofNat 0]) =
      some (quoteChar :: (e ++ List.replicate (m - e.length) (Char.ofNat 0))) := by
  have h1 : 1 + (e.length + 1) ≤ m + 1 := by omega
  have h2 : m - e.length = (m - (e.length + 1)) + 1 := by omega
  simp only [writeAt, List.length_append, List.length_cons, List.length_nil,
    List.length_replicate, h1, if_true]
  rw [h2, List.replicate_succ]
  have h3 : 1 + (e.length + 0 + 1) = (e.length + 1) + 1 := by omega
  simp [h3, List.drop_replicate]

/-- Cutting the written buffer to `ret + 1` bytes. -/
theorem resize_written (m ret : Nat) (e : List Char) (he : e.length ≤ m) (hret : ret ≤ m) :
    resize (quoteChar :: (e ++ List.replicate (m - e.length) (Char.ofNat 0))) (ret + 1) =
      quoteChar :: (e ++ List.replicate (m - e.length) (Char.ofNat 0)).take ret := by
  have hlen : ret + 1 - (quoteChar :: (e ++ List.replicate (m - e.length)
      (Char.ofNat 0))).length = 0 := by
    simp
    omega
  simp only [resize, hlen, List.replicate_zero, List.append_nil, List.take_succ_cons]

/-- The whole effect of `quote_string` on a connected object, for a present
string, when the escaper stays inside the buffer. -/
theorem quote_string_connected (w : World) (h : Nat) (hw : w.obj.pConn_ = some h)
    (input escaped : List Char) (ret : Nat)
    (hsz : input.length * 2 + 3 < 2 ^ 64)
    (hesc : escaped.length ≤ 2 * input.length + 1)
    (hret : ret ≤ 2 * input.length + 2) :
    quote_string (some input) escaped ret w =
      (.ok (quoteChar :: (escaped ++ List.replicate (input.length * 2 + 2 - escaped.length)
          (Char.ofNat 0)).take ret ++ [quoteChar]),
        emit (.mysql_real_escape_string (some h) input) w) := by
  have hN : (input.length * 2 + 3) % 2 ^ 64 = (input.length * 2 + 2) + 1 :=
    Nat.mod_eq_of_lt hsz
  have hr1 : ret % 2 ^ 64 = ret := Nat.mod_eq_of_lt (by omega)
  have hr2 : (ret + 1) % 2 ^ 64 = ret + 1 := Nat.mod_eq_of_lt (by omega)
  simp only [quote_string, emit_obj, hw, hN, resize_quote]
  rw [writeAt_quote _ _ (by omega)]
  simp only [hr1, hr2]
  rw [resize_written _ _ _ (by omega) (by omega)]

/-- When the escaper writes `escaped` and returns its length, the result is
`escaped` between two quotes. -/
theorem quote_string_wraps (w : World) (h : Nat) (hw : w.obj.pConn_ = some h)
    (input escaped : List Char)
    (hsz : input.length * 2 + 3 < 2 ^ 64)
    (hesc : escaped.length ≤ 2 * input.length) :
    (quote_string (some input) escaped escaped.length w).1 =
      .ok (quoteChar :: escaped ++ [quoteChar]) := by
  rw [quote_string_connected w h hw input escaped escaped.length hsz (by omega) (by omega)]
  simp [List.take_left']

/-- C13 (the code at the failing input): a second `connect` on a connected
object, then `disconnect` (or destruction).  Two handles are created, 1 and 2;
the only `mysql_close` of the whole run is on handle 2, handle 1 is never
closed, and the object ends disconnected. -/
theorem C13_reconnect_leaks_handle :
    (history [.connect ConnectArgs.unset 1 none, .connect ConnectArgs.unset 2 none,
        .disconnect] World.init).map Prod.snd = [true, true, true] ∧
      closedHandles (calls World.init (run [.connect ConnectArgs.unset 1 none,
        .connect ConnectArgs.unset 2 none, .disconnect] World.init)) = [some 2] ∧
      (calls World.init (run [.connect ConnectArgs.unset 1 none,
        .connect ConnectArgs.unset 2 none, .disconnect] World.init)).count
          (Call.mysql_close (some 1)) = 0 ∧
      is_connected (run [.connect ConnectArgs.unset 1 none,
        .connect ConnectArgs.unset 2 none, .disconnect] World.init) = false ∧
      closedHandles (calls World.init (destroy (run [.connect ConnectArgs.unset 1 none,
        .connect ConnectArgs.unset 2 none] World.init))) = [some 2] := by
  decide

/-- C14: on a connected connection `quote_string` of the missing value returns
the four characters `NULL`, without quotes and without any call; for a present
string of `n` bytes for which the escaper writes `escaped` (at most `2 n`
bytes, the bound of the client library) and returns its length, it returns the
quote, `escaped`, the quote, of length `|escaped| + 2`; with the standard
escaper `O'Brien` gives `'O\'Brien'`. -/
theorem C14_quote_string (w : World) (h : Nat) (hw : w.obj.pConn_ = some h)
    (input escaped : List Char)
    (hsz : input.length * 2 + 3 < 2 ^ 64)
    (hesc : escaped.length ≤ 2 * input.length) :
    (∀ e r, quote_string none e r w = (.ok ['N', 'U', 'L', 'L'], w)) ∧
      (quote_string (some input) escaped escaped.length w).1 =
        .ok (quoteChar :: escaped ++ [quoteChar]) ∧
      (quoteChar :: escaped ++ [quoteChar]).length = escaped.length + 2 ∧
      (quote_string (some "O\x27Brien".toList) (standard_escape "O\x27Brien".toList)
          (standard_escape "O\x27Brien".toList).length w).1 =
        .ok "\x27O\\\x27Brien\x27".toList := by
  refine ⟨fun _ _ => rfl, quote_string_wraps w h hw input escaped hsz hesc, by simp, ?_⟩
  rw [quote_string_wraps w h hw _ _ (by decide) (by decide)]
  decide

/-- C14 witness: the string `ab`, which the escaper copies. -/
theorem C14_quote_string_witness :
    (⟨⟨some 1, none, false⟩, []⟩ : World).obj.pConn_ = some 1 ∧
      ['a', 'b'].length * 2 + 3 < 2 ^ 64 ∧
      ['a', 'b'].length ≤ 2 * ['a', 'b'].length ∧
      (quote_string (some ['a', 'b']) ['a', 'b'] 2 ⟨⟨some 1, none, false⟩, []⟩).1 =
        .ok [quoteChar, 'a', 'b', quoteChar] :=
  ⟨rfl, by decide, by decide,
    (C14_quote_string ⟨⟨some 1, none, false⟩, []⟩ 1 rfl ['a', 'b'] ['a', 'b']
      (by decide) (by decide)).2.1⟩

/-- The whole effect of `exec` on a connected object. -/
theorem exec_connected (h : Nat) (r : Option Nat) (t : Bool)
    (tr : List (Call × MariaConnection)) (sql : String) (status : Int) (error : String)
    (res : Option Nat) :
    exec sql status error res ⟨⟨some h, r, t⟩, tr⟩ =
      (if status ≠ 0 then .stop ("Error executing query: " ++ error) else .ok true,
        ⟨⟨some h, none, t⟩,
          tr ++ (if r ≠ none then [(Call.MariaResult_close r, ⟨some h, r, t⟩)] else []) ++
            [(Call.mysql_real_query (some h) sql, ⟨some h, none, t⟩)] ++
            (if status ≠ 0 then [(Call.mysql_error (some h), ⟨some h, none, t⟩)]
             else [(Call.mysql_store_result (some h), ⟨some h, none, t⟩)] ++
              (if res ≠ none then [(Call.mysql_free_result res, ⟨some h, none, t⟩)]
               else []))⟩) := by
  simp only [exec, check_connection, is_connected, conn, set_current_result_eq]
  by_cases hs : status = 0 <;> cases r <;> cases res <;> simp [hs, emit]

/-- C15: on a connected connection `exec` first closes the current result, if
there is one, with no warning, and clears `pCurrentResult_`; only then is the
SQL text dispatched (`mysql_real_query` is recorded with `pCurrentResult_`
already `NULL`).  When the dispatch fails `exec` raises "Error executing
query: " followed by the driver text; when it succeeds it stores the result,
frees it if there is one, and returns true.  In both outcomes `has_query()` is
false afterwards, `transacting_` and `pConn_` are unchanged, and no warning is
emitted. -/
theorem C15_exec_connected (h : Nat) (r : Option Nat) (t : Bool)
    (tr : List (Call × MariaConnection)) (sql : String) (status : Int) (error : String)
    (res : Option Nat) :
    (exec sql status error res ⟨⟨some h, r, t⟩, tr⟩).1 =
        (if status ≠ 0 then .stop ("Error executing query: " ++ error) else .ok true) ∧
      emitted ⟨⟨some h, r, t⟩, tr⟩ (exec sql status error res ⟨⟨some h, r, t⟩, tr⟩).2 =
        (if r ≠ none then [(Call.MariaResult_close r, ⟨some h, r, t⟩)] else []) ++
          [(Call.mysql_real_query (some h) sql, ⟨some h, none, t⟩)] ++
          (if status ≠ 0 then [(Call.mysql_error (some h), ⟨some h, none, t⟩)]
           else [(Call.mysql_store_result (some h), ⟨some h, none, t⟩)] ++
            (if res ≠ none then [(Call.mysql_free_result res, ⟨some h, none, t⟩)]
             else [])) ∧
      (exec sql status error res ⟨⟨some h, r, t⟩, tr⟩).2.obj = ⟨some h, none, t⟩ ∧
      has_query (exec sql status error res ⟨⟨some h, r, t⟩, tr⟩).2 = false ∧
      is_transacting (exec sql status error res ⟨⟨some h, r, t⟩, tr⟩).2 = t ∧
      (calls ⟨⟨some h, r, t⟩, tr⟩
        (exec sql status error res ⟨⟨some h, r, t⟩, tr⟩).2).any Call.isWarning = false := by
  rw [exec_connected]
  refine ⟨rfl, ?_, rfl, ?_, rfl, ?_⟩
  · simp [emitted]
  · simp [has_query]
  · by_cases hs : status = 0 <;> cases r <;> cases res <;>
      simp [calls, emitted, hs, Call.isWarning]

/-- C16: for every combination of present and absent options, whatever the
handshake then does, the calls of `connect` are `mysql_init`, then the
configuration calls in the order local-infile, charset `utf8mb4`,
read-default-group iff `groups` is present, read-default-file iff
`default_file` is present, one combined TLS call iff one of the five TLS
fields is present (each field passed as it is), and only then the handshake.
The number of TLS calls is 1 when a TLS field is present and 0 when all five
are absent; a present empty string counts as present. -/
theorem C16_options_builder (a : ConnectArgs) (h : Nat) (handshake : Option String)
    (w : World) :
    calls w (connect a h handshake w).2 =
        [Call.mysql_init,
          Call.mysql_options (some h) .MYSQL_OPT_LOCAL_INFILE none,
          Call.mysql_options (some h) .MYSQL_SET_CHARSET_NAME (some "utf8mb4")] ++
        (if a.groups.isSome then
          [Call.mysql_options (some h) .MYSQL_READ_DEFAULT_GROUP a.groups] else []) ++
        (if a.default_file.isSome then
          [Call.mysql_options (some h) .MYSQL_READ_DEFAULT_FILE a.default_file] else []) ++
        (if a.ssl_key.isSome || a.ssl_cert.isSome || a.ssl_ca.isSome ||
            a.ssl_capath.isSome || a.ssl_cipher.isSome then
          [Call.mysql_ssl_set (some h) a.ssl_key a.ssl_cert a.ssl_ca a.ssl_capath
            a.ssl_cipher] else []) ++
        handshake_call a h ::
          (if handshake.isSome then [Call.mysql_error (some h), Call.mysql_close (some h)]
           else []) ∧
      calls w (connect a h handshake w).2 =
        Call.mysql_init :: (configuration_calls a h ++ handshake_call a h ::
          (if handshake.isSome then [Call.mysql_error (some h), Call.mysql_close (some h)]
           else [])) ∧
      (calls w (connect a h handshake w).2).countP Call.isSslSet =
        (if a.ssl_key.isSome || a.ssl_cert.isSome || a.ssl_ca.isSome ||
            a.ssl_capath.isSome || a.ssl_cipher.isSome then 1 else 0) ∧
      calls w (connect { ConnectArgs.unset with ssl_ca := some "" } h none w).2 =
        [Call.mysql_init,
          Call.mysql_options (some h) .MYSQL_OPT_LOCAL_INFILE none,
          Call.mysql_options (some h) .MYSQL_SET_CHARSET_NAME (some "utf8mb4"),
          Call.mysql_ssl_set (some h) none none (some "") none none,
          Call.mysql_real_connect (some h) none none none none 0 none 0] ∧
      calls w (connect ConnectArgs.unset h none w).2 =
        [Call.mysql_init,
          Call.mysql_options (some h) .MYSQL_OPT_LOCAL_INFILE none,
          Call.mysql_options (some h) .MYSQL_SET_CHARSET_NAME (some "utf8mb4"),
          Call.mysql_real_connect (some h) none none none none 0 none 0] := by
  refine ⟨?_, connect_calls a h handshake w, ?_, ?_, ?_⟩
  · rw [connect_calls]
    simp [configuration_calls]
  · rw [connect_calls]
    simp only [configuration_calls, handshake_call]
    cases handshake <;> split_ifs <;> simp [Call.isSslSet, List.countP_cons]
  · rw [connect_calls]
    simp [configuration_calls, handshake_call, ConnectArgs.unset]
  · rw [connect_calls]
    simp [configuration_calls, handshake_call, ConnectArgs.unset]

/-- The state a successful `connect` leaves on a newly constructed connection. -/
theorem connect_init (a : ConnectArgs) (h : Nat) :
    (connect a h none World.init).2 =
      ⟨⟨some h, none, false⟩,
        (Call.mysql_init, MariaConnection.init) ::
          (configuration_calls a h ++ [handshake_call a h]).map
            (fun c => (c, ⟨some h, none, false⟩))⟩ := by
  have ho := connect_obj a h none World.init
  have ht := connect_trace a h none World.init
  generalize (connect a h none World.init).2 = w at ho ht
  rcases w with ⟨o, tr⟩
  simp only at ho ht
  subst ho ht
  simp [World.init, MariaConnection.init]

/-- C17: on a newly constructed connection, with a transport on which the
handshake and both statements succeed (whatever the options, the handle and
the result sets the statements store), the sequence connect,
exec("CREATE TABLE t(x INT)"), begin_transaction,
exec("INSERT INTO t VALUES (1)"), commit, disconnect raises no error (every
operation returns normally), emits no warning, both `exec` calls return true,
and the final state is disconnected, outside a transaction and without a
current result. -/
theorem C17_end_to_end (a : ConnectArgs) (h : Nat) (e1 e2 : String) (r1 r2 : Option Nat) :
    (history [.connect a h none, .exec "CREATE TABLE t(x INT)" 0 e1 r1, .begin_transaction,
        .exec "INSERT INTO t VALUES (1)" 0 e2 r2, .commit, .disconnect] World.init).map
        Prod.snd = [true, true, true, true, true, true] ∧
      (calls World.init (run [.connect a h none, .exec "CREATE TABLE t(x INT)" 0 e1 r1,
        .begin_transaction, .exec "INSERT INTO t VALUES (1)" 0 e2 r2, .commit, .disconnect]
        World.init)).any Call.isWarning = false ∧
      (exec "CREATE TABLE t(x INT)" 0 e1 r1 (run [.connect a h none] World.init)).1 =
        .ok true ∧
      (exec "INSERT INTO t VALUES (1)" 0 e2 r2
        (run [.connect a h none, .exec "CREATE TABLE t(x INT)" 0 e1 r1, .begin_transaction]
          World.init)).1 = .ok true ∧
      (run [.connect a h none, .exec "CREATE TABLE t(x INT)" 0 e1 r1, .begin_transaction,
        .exec "INSERT INTO t VALUES (1)" 0 e2 r2, .commit, .disconnect] World.init).obj =
        ⟨none, none, false⟩ ∧
      is_connected (run [.connect a h none, .exec "CREATE TABLE t(x INT)" 0 e1 r1,
        .begin_transaction, .exec "INSERT INTO t VALUES (1)" 0 e2 r2, .commit, .disconnect]
        World.init) = false := by
  have hb : ∀ tr, begin_transaction ⟨⟨some h, none, false⟩, tr⟩ =
      (.ok (), ⟨⟨some h, none, true⟩, tr⟩) := by
    intro tr
    simp [begin_transaction, is_transacting, check_connection, is_connected, conn]
  have hc : ∀ tr, commit ⟨⟨some h, none, true⟩, tr⟩ =
      (.ok (), ⟨⟨some h, none, false⟩,
        tr ++ [(Call.mysql_commit (some h), ⟨some h, none, true⟩)]⟩) := by
    intro tr
    simp [commit, is_transacting, check_connection, is_connected, conn, emit]
  have hconn : (connect a h none World.init).1 = .ok () := rfl
  refine ⟨?_, ?_, ?_, ?_, ?_, ?_⟩
  · simp [history, step, hconn, connect_init, exec_connected, hb, hc, disconnect_connected,
      Outcome.returned]
  · simp only [run, step, connect_init, exec_connected, hb, hc, disconnect_connected]
    cases r1 <;> cases r2 <;>
      simp [calls, emitted, World.init, Call.isWarning, handshake_call] <;>
      exact fun x hx => configuration_isWarning a h x hx
  · simp [run, step, connect_init, exec_connected]
  · simp [run, step, connect_init, exec_connected, hb]
  · simp [run, step, connect_init, exec_connected, hb, hc, disconnect_connected]
  · simp [run, step, connect_init, exec_connected, hb, hc, disconnect_connected,
      is_connected, conn]

/-- C18: on a connected connection `disconnect` returns normally, emits the
"There is a result object still in use" warning iff `has_query()` is true,
never calls `close` on the result, calls `mysql_close` exactly once, on the
handle, and leaves `is_connected()` false; `pCurrentResult_` and
`transacting_` are left as they were. -/
theorem C18_disconnect_connected (h : Nat) (r : Option Nat) (t : Bool)
    (tr : List (Call × MariaConnection)) :
    (disconnect ⟨⟨some h, r, t⟩, tr⟩).1 = .ok () ∧
      (Call.warning result_in_use_warning ∈
          calls ⟨⟨some h, r, t⟩, tr⟩ (disconnect ⟨⟨some h, r, t⟩, tr⟩).2 ↔
        has_query ⟨⟨some h, r, t⟩, tr⟩ = true) ∧
      calls ⟨⟨some h, r, t⟩, tr⟩ (disconnect ⟨⟨some h, r, t⟩, tr⟩).2 =
        (if has_query ⟨⟨some h, r, t⟩, tr⟩ then [Call.warning result_in_use_warning]
         else []) ++ [Call.mysql_close (some h)] ∧
      (∀ p, (calls ⟨⟨some h, r, t⟩, tr⟩ (disconnect ⟨⟨some h, r, t⟩, tr⟩).2).count
        (Call.MariaResult_close p) = 0) ∧
      closedHandles (calls ⟨⟨some h, r, t⟩, tr⟩ (disconnect ⟨⟨some h, r, t⟩, tr⟩).2) =
        [some h] ∧
      is_connected (disconnect ⟨⟨some h, r, t⟩, tr⟩).2 = false ∧
      (disconnect ⟨⟨some h, r, t⟩, tr⟩).2.obj = ⟨none, r, t⟩ := by
  rw [disconnect_connected]
  have hcalls : calls ⟨⟨some h, r, t⟩, tr⟩
      ⟨⟨none, r, t⟩, tr ++ (if r ≠ none then
          [(Call.warning result_in_use_warning, (⟨some h, r, t⟩ : MariaConnection))]
        else []) ++ [(Call.mysql_close (some h), ⟨some h, r, t⟩)]⟩ =
      (if has_query ⟨⟨some h, r, t⟩, tr⟩ then [Call.warning result_in_use_warning]
       else []) ++ [Call.mysql_close (some h)] := by
    cases r <;> simp [calls, emitted, has_query]
  rw [hcalls]
  refine ⟨rfl, ?_, rfl, ?_, ?_, rfl, rfl⟩
  · cases r <;> simp [has_query]
  · intro p
    cases r <;> simp [has_query, List.count_cons]
  · cases r <;> simp [has_query, closedHandles]

/-- C19: for an input of `n` bytes (`2 n + 3` representable in `size_t`), when
the escaper writes at most `2 n` bytes and then the terminating byte, from
offset 1, and returns `ret ≤ 2 n`: the buffer has `2 n + 3` bytes; the last
written index is inside it, so the write stays inside (`writeAt` succeeds and
keeps the length); the later resize, to `ret + 1`, is not longer than the
buffer; and `quote_string` returns a string of length `ret + 2 ≤ 2 n + 2`. -/
theorem C19_buffer_sufficient (w : World) (h : Nat) (hw : w.obj.pConn_ = some h)
    (input escaped : List Char) (ret : Nat)
    (hsz : input.length * 2 + 3 < 2 ^ 64)
    (hesc : escaped.length ≤ 2 * input.length)
    (hret : ret ≤ 2 * input.length) :
    (resize [quoteChar] ((input.length * 2 + 3) % 2 ^ 64)).length = 2 * input.length + 3 ∧
      1 + (escaped ++ [Char.ofNat 0]).length ≤
        (resize [quoteChar] ((input.length * 2 + 3) % 2 ^ 64)).length ∧
      (∃ buf, writeAt (resize [quoteChar] ((input.length * 2 + 3) % 2 ^ 64)) 1
            (escaped ++ [Char.ofNat 0]) = some buf ∧
          buf.length = 2 * input.length + 3 ∧
          (ret % 2 ^ 64 + 1) % 2 ^ 64 = ret + 1 ∧
          (ret % 2 ^ 64 + 1) % 2 ^ 64 ≤ buf.length ∧
          (resize buf ((ret % 2 ^ 64 + 1) % 2 ^ 64)).length ≤ buf.length) ∧
      (∃ out, (quote_string (some input) escaped ret w).1 = .ok out ∧
          out.length = ret + 2 ∧ out.length ≤ 2 * input.length + 2) := by
  have hN : (input.length * 2 + 3) % 2 ^ 64 = (input.length * 2 + 2) + 1 :=
    Nat.mod_eq_of_lt hsz
  have hr1 : ret % 2 ^ 64 = ret := Nat.mod_eq_of_lt (by omega)
  have hr2 : (ret + 1) % 2 ^ 64 = ret + 1 := Nat.mod_eq_of_lt (by omega)
  refine ⟨?_, ?_, ?_, ?_⟩
  · rw [resize_length, hN]
    omega
  · rw [resize_length, hN]
    simp
    omega
  · rw [hN, resize_quote, writeAt_quote _ _ (by omega)]
    refine ⟨_, rfl, ?_, ?_, ?_, ?_⟩
    · simp
      omega
    · rw [hr1, hr2]
    · rw [hr1, hr2]
      simp
      omega
    · rw [resize_length, hr1, hr2]
      simp
      omega
  · rw [quote_string_connected w h hw input escaped ret hsz (by omega) (by omega)]
    refine ⟨_, rfl, ?_, ?_⟩
    · simp
      omega
    · simp
      omega

/-- C19 witness: the two bytes `a'`, escaped to three bytes. -/
theorem C19_buffer_sufficient_witness :
    (⟨⟨some 1, none, false⟩, []⟩ : World).obj.pConn_ = some 1 ∧
      ['a', quoteChar].length * 2 + 3 < 2 ^ 64 ∧
      (standard_escape ['a', quoteChar]).length ≤ 2 * ['a', quoteChar].length ∧
      3 ≤ 2 * ['a', quoteChar].length ∧
      (resize [quoteChar] ((['a', quoteChar].length * 2 + 3) % 2 ^ 64)).length = 7 ∧
      (quote_string (some ['a', quoteChar]) (standard_escape ['a', quoteChar]) 3
        ⟨⟨some 1, none, false⟩, []⟩).1 =
        .ok [quoteChar, 'a', Char.ofNat 92, quoteChar, quoteChar] :=
  ⟨rfl, by decide, by decide, by decide,
    (C19_buffer_sufficient ⟨⟨some 1, none, false⟩, []⟩ 1 rfl ['a', quoteChar]
      (standard_escape ['a', quoteChar]) 3 (by decide) (by decide) (by decide)).1,
    by decide⟩

/-- C20: on a disconnected connection, whatever `pCurrentResult_` and
`transacting_` are, each of `exec`, `begin_transaction`, `commit` and
`rollback` raises and leaves the state and the trace exactly as they were: no
data member is written, no `close` on a result, no transport call and no
warning.  In particular `exec` does not clear a current result left by a
disconnect, and `commit` and `rollback` do not reset a `transacting_` left
true. -/
theorem C20_disconnected_atomic (r : Option Nat) (t : Bool)
    (tr : List (Call × MariaConnection)) :
    (∀ sql status error res,
        (exec sql status error res ⟨⟨none, r, t⟩, tr⟩).1.returned = false ∧
        (exec sql status error res ⟨⟨none, r, t⟩, tr⟩).2 = ⟨⟨none, r, t⟩, tr⟩ ∧
        calls ⟨⟨none, r, t⟩, tr⟩ (exec sql status error res ⟨⟨none, r, t⟩, tr⟩).2 = []) ∧
      ((begin_transaction ⟨⟨none, r, t⟩, tr⟩).1.returned = false ∧
        (begin_transaction ⟨⟨none, r, t⟩, tr⟩).2 = ⟨⟨none, r, t⟩, tr⟩ ∧
        calls ⟨⟨none, r, t⟩, tr⟩ (begin_transaction ⟨⟨none, r, t⟩, tr⟩).2 = []) ∧
      ((commit ⟨⟨none, r, t⟩, tr⟩).1.returned = false ∧
        (commit ⟨⟨none, r, t⟩, tr⟩).2 = ⟨⟨none, r, t⟩, tr⟩ ∧
        calls ⟨⟨none, r, t⟩, tr⟩ (commit ⟨⟨none, r, t⟩, tr⟩).2 = []) ∧
      ((rollback ⟨⟨none, r, t⟩, tr⟩).1.returned = false ∧
        (rollback ⟨⟨none, r, t⟩, tr⟩).2 = ⟨⟨none, r, t⟩, tr⟩ ∧
        calls ⟨⟨none, r, t⟩, tr⟩ (rollback ⟨⟨none, r, t⟩, tr⟩).2 = []) ∧
      (∀ sql status error res,
        (exec sql status error res ⟨⟨none, r, t⟩, tr⟩).2.obj.pCurrentResult_ = r) ∧
      (commit ⟨⟨none, r, true⟩, tr⟩).2.obj.transacting_ = true ∧
      (rollback ⟨⟨none, r, true⟩, tr⟩).2.obj.transacting_ = true := by
  have he : ∀ sql status error res,
      exec sql status error res ⟨⟨none, r, t⟩, tr⟩ =
        (.stop connection_error, ⟨⟨none, r, t⟩, tr⟩) := by
    intro sql status error res
    simp [exec, check_connection, is_connected, conn, connection_error]
  have hb : begin_transaction ⟨⟨none, r, t⟩, tr⟩ =
      (.stop (if t then nested_error else connection_error), ⟨⟨none, r, t⟩, tr⟩) := by
    cases t <;>
      simp [begin_transaction, is_transacting, check_connection, is_connected, conn,
        connection_error, nested_error]
  have hc : ∀ t, commit ⟨⟨none, r, t⟩, tr⟩ =
      (.stop (if t then connection_error else no_transaction_error),
        ⟨⟨none, r, t⟩, tr⟩) := by
    intro t
    cases t <;>
      simp [commit, is_transacting, check_connection, is_connected, conn,
        connection_error, no_transaction_error]
  have hr : ∀ t, rollback ⟨⟨none, r, t⟩, tr⟩ =
      (.stop (if t then connection_error else no_transaction_error),
        ⟨⟨none, r, t⟩, tr⟩) := by
    intro t
    cases t <;>
      simp [rollback, is_transacting, check_connection, is_connected, conn,
        connection_error, no_transaction_error]
  refine ⟨?_, ?_, ?_, ?_, ?_, ?_, ?_⟩
  · intro sql status error res
    rw [he]
    exact ⟨rfl, rfl, calls_self _⟩
  · rw [hb]
    exact ⟨rfl, rfl, calls_self _⟩
  · rw [hc]
    exact ⟨rfl, rfl, calls_self _⟩
  · rw [hr]
    exact ⟨rfl, rfl, calls_self _⟩
  · intro sql status error res
    rw [he]
  · rw [hc]
  · rw [hr]

end RMariaDB
